import Mathlib

/-!
Shallow embedding of `result.hpp`, a header-only C++20 `Result<T, E>` type
(tagged union of a success payload `T` and an error payload `E`), together
with theorems settling the specification claims about it.

Modelling conventions:
* `data_ : std::variant<Ok<T>, Err<E>>` becomes a two-constructor inductive
  type; the single data member of the `Ok`/`Err` wrapper structs is inlined
  into the corresponding constructor.
* Operations that can throw `std::runtime_error` return
  `Except String _`, the `String` being the exception's diagnostic text.
* Compile-time `if constexpr` dispatch on template types is reified as an
  explicit parameter of the embedded function (documented at each use).
* All four reference-qualified C++ overloads of an operation compute the
  same value-level outcome and share one implementation in the source
  (`map_impl`, `match_impl`, ...); each is embedded as a single Lean
  function on values.
-/

namespace ResultHpp

/-- Embedding of `struct Error`: the default error payload, holding a
`message` string and an integer `code` (defaulting to 0 in the source).
Its `operator==` compares both fields, which coincides with the derived
structural equality. -/
structure Error where
  message : String
  code : Int
deriving DecidableEq, Repr

/-- Embedding of the `Result<void, E>` specialization: its member
`data_ : std::variant<std::monostate, E>` holds either the empty Ok marker
or an error. -/
inductive ResultV (E : Type) where
  | ok : ResultV E
  | err (error : E) : ResultV E
deriving DecidableEq, Repr

/-- Embedding of `Result<void, E>::is_ok`:
`std::holds_alternative<std::monostate>(data_)`. -/
def ResultV.is_ok {E : Type} : ResultV E → Bool
  | .ok => true
  | .err _ => false

/-- Embedding of `Result<void, E>::is_err`:
`std::holds_alternative<E>(data_)`. -/
def ResultV.is_err {E : Type} : ResultV E → Bool
  | .ok => false
  | .err _ => true

/-- Embedding of the general `Result<T, E>` class: its member
`data_ : std::variant<Ok<T>, Err<E>>` is modelled as a sum with the
`Ok<T>::value` and `Err<E>::error` fields inlined, so a value is always in
exactly one of the two alternatives. The constructors double as the
factories `Result<T,E>::ok(T value)` and `Result<T,E>::err(E error)`,
which construct `data_` holding `Ok<T>{value}` resp. `Err<E>{error}`. -/
inductive Result (T E : Type) where
  | ok (value : T) : Result T E
  | err (error : E) : Result T E
deriving DecidableEq, Repr

/-- Embedding of `Result<T,E>::ok_in_place(args...)`: the source constructs
`Ok<T>(args...)` directly inside the variant; the embedding receives the
constructed payload and produces the same Ok state. -/
def Result.ok_in_place {T E : Type} (value : T) : Result T E :=
  Result.ok value

/-- Embedding of `Result<T,E>::err_in_place(args...)`: the source constructs
`Err<E>(args...)` directly inside the variant; the embedding receives the
constructed error and produces the same Err state. -/
def Result.err_in_place {T E : Type} (error : E) : Result T E :=
  Result.err error

/-- Embedding of the convenience overload `err(message, code = 0)`,
available only when `E` is the default `Error` type: it constructs
`Err<Error>(message, code)` for the caller. -/
def Result.errMsg {T : Type} (message : String) (code : Int) : Result T Error :=
  Result.err ⟨message, code⟩

/-- Embedding of `Result<T,E>::is_ok`:
`std::holds_alternative<Ok<T>>(data_)`. -/
def Result.is_ok {T E : Type} : Result T E → Bool
  | .ok _ => true
  | .err _ => false

/-- Embedding of `Result<T,E>::is_err`:
`std::holds_alternative<Err<E>>(data_)`. -/
def Result.is_err {T E : Type} : Result T E → Bool
  | .ok _ => false
  | .err _ => true

/-- Embedding of `explicit operator bool()`: the source returns `is_ok()`. -/
def Result.toBool {T E : Type} (r : Result T E) : Bool :=
  r.is_ok

/-- Embedding of `Result<T,E>::expect(msg)` (all four reference-qualified
overloads compute the same outcome). The visitor's compile-time branch
`else if constexpr (is_same_v<decay_t<T0>, Err<Error>>)` — taken exactly
when `E` is the default `Error` type — is reified as the parameter
`errMessage?`: it is `some f` when `E` is `Error` (with `f` reading the
`.message` field, i.e. `Error.message`) and `none` for any other error
type. On Ok the payload is returned; on Err the function throws `msg`
followed by ": " and the error's message when `E` is `Error`, and throws
exactly `msg` otherwise. -/
def Result.expect {T E : Type} (errMessage? : Option (E → String))
    (msg : String) : Result T E → Except String T
  | .ok v => Except.ok v
  | .err e =>
    match errMessage? with
    | some msgOf => Except.error (msg ++ ": " ++ msgOf e)
    | none => Except.error msg

/-- Embedding of `Result<T,E>::unwrap()`: the source is exactly
`expect("Attempted to unwrap error result")` (with matching reference
qualification), so the embedding delegates to `Result.expect` with that
message, carrying the same reified type dispatch. -/
def Result.unwrap {T E : Type} (errMessage? : Option (E → String)) :
    Result T E → Except String T :=
  Result.expect errMessage? "Attempted to unwrap error result"

/-- Embedding of `Result<T,E>::unwrap_err()`: on Err the error is returned,
on Ok the source throws
`std::runtime_error("Attempted to unwrap_err on ok result")`. -/
def Result.unwrap_err {T E : Type} : Result T E → Except String E
  | .ok _ => Except.error "Attempted to unwrap_err on ok result"
  | .err e => Except.ok e

/-- Embedding of `Result<T,E>::expect_err(msg)`: on Err the error is
returned; on Ok the source throws `std::runtime_error(msg)` — there is no
compile-time branch on `E` here, so the diagnostic is exactly `msg` for
every error type, the default `Error` included. -/
def Result.expect_err {T E : Type} (msg : String) :
    Result T E → Except String E
  | .ok _ => Except.error msg
  | .err e => Except.ok e

/-- Embedding of `Result<T,E>::unwrap_or(default_val)`: the payload when
Ok, the supplied default when Err. -/
def Result.unwrap_or {T E : Type} (default_val : T) : Result T E → T
  | .ok v => v
  | .err _ => default_val

/-- Embedding of `Result<T,E>::unwrap_or_else(f)`: the payload when Ok,
otherwise `std::invoke(f, error)`. -/
def Result.unwrap_or_else {T E : Type} (f : E → T) : Result T E → T
  | .ok v => v
  | .err e => f e

/-- Embedding of `Result<T,E>::contains(value)`: true iff Ok and the
payload compares equal to `value` (the source's template parameter `U` is
instantiated at `T` with `BEq` supplying `operator==`). -/
def Result.contains {T E : Type} [BEq T] (value : T) : Result T E → Bool
  | .ok v => v == value
  | .err _ => false

/-- Embedding of `Result<T,E>::match(ok_fn, err_fn)` via `match_impl`
(named `matchWith` because `match` is a Lean keyword): the visitor invokes
`ok_fn` on the payload in the Ok alternative and `err_fn` on the error in
the Err alternative. -/
def Result.matchWith {T E R : Type} (ok_fn : T → R) (err_fn : E → R) :
    Result T E → R
  | .ok v => ok_fn v
  | .err e => err_fn e

/-- Embedding of `Result<T,E>::map(f)` via `map_impl`, value-returning
branch (`!is_void_v<ResultType>`): Ok wraps `std::invoke(f, value)` as
`Result<U,E>::ok`, Err rewraps the untouched error as `Result<U,E>::err`. -/
def Result.map {T E U : Type} (f : T → U) : Result T E → Result U E
  | .ok v => Result.ok (f v)
  | .err e => Result.err e

/-- Embedding of `map_impl`'s void branch (`is_void_v<ResultType>`), taken
when `f` returns no value: Ok invokes `f` for its effect and returns
`Result<void,E>::ok()`; Err rewraps the error as `Result<void,E>::err`. -/
def Result.mapVoid {T E : Type} (f : T → Unit) : Result T E → ResultV E
  | .ok v =>
    let _ := f v
    ResultV.ok
  | .err e => ResultV.err e

/-- Embedding of `Result<T,E>::and_then(f)` via `and_then_impl`: Ok returns
`std::invoke(f, value)` — the `Result` produced by `f` itself, with no
extra wrapping; Err returns `ResultType::err(error)`, the Err state of
`f`'s result type holding the same error. -/
def Result.and_then {T E U : Type} (f : T → Result U E) :
    Result T E → Result U E
  | .ok v => f v
  | .err e => Result.err e

/-- Embedding of `Result<T,E>::map_err(f)` via `map_err_impl`. The
visitor's compile-time branch `if constexpr (is_same_v<FResult,
Err<ErrorType>>)` selects between the `err` factory (wrapping an
already-constructed value) and `err_in_place` (forwarding the value to
`F'`'s constructor); it is reified as the parameter `samePath`. In both
paths the new error is constructed from the single value `f e`. -/
def Result.map_err {T E F : Type} (samePath : Bool) (f : E → F) :
    Result T E → Result T F
  | .ok v => Result.ok v
  | .err e =>
    if samePath then Result.err (f e) else Result.err_in_place (f e)

/-- Embedding of `Result<T,E>::or_else(f)` via `or_else_impl`: Ok
reconstructs `Result<T,E>::ok(value)` with the payload unchanged; Err
returns `std::invoke(f, error)`. -/
def Result.or_else {T E : Type} (f : E → Result T E) :
    Result T E → Result T E
  | .ok v => Result.ok v
  | .err e => f e

/-- Embedding of `to_optional()` on a const-lvalue receiver (copying, the
receiver untouched): `std::optional<T>` holding the payload when Ok,
`std::nullopt` when Err. -/
def Result.to_optional {T E : Type} : Result T E → Option T
  | .ok v => some v
  | .err _ => none

/-- Embedding of `to_optional()` on an rvalue receiver (moving the payload
out): the moved-from source holds the same value, so the optional produced
is the payload when Ok and `std::nullopt` when Err. -/
def Result.to_optional_rv {T E : Type} : Result T E → Option T
  | .ok v => some v
  | .err _ => none

/-- Number of `std::invoke(f, ...)` occurrences executed by `map_impl` on
each variant alternative: both the void-returning and the value-returning
compile-time branches invoke `f` exactly once in their Ok case and contain
no invocation in their Err case. -/
def Result.mapCalls {T E : Type} : Result T E → Nat
  | .ok _ => 1
  | .err _ => 0

/-- Number of `std::invoke(f, ...)` occurrences executed by
`and_then_impl`: one in the Ok case, none in the Err case. -/
def Result.andThenCalls {T E : Type} : Result T E → Nat
  | .ok _ => 1
  | .err _ => 0

/-- Number of `std::invoke(f, ...)` occurrences executed by `or_else_impl`:
none in the Ok case, one in the Err case. -/
def Result.orElseCalls {T E : Type} : Result T E → Nat
  | .ok _ => 0
  | .err _ => 1

/-- Number of `std::invoke(f, ...)` occurrences executed by
`unwrap_or_else`: the Ok branch returns the payload without invoking `f`,
the Err branch invokes `f` once. -/
def Result.unwrapOrElseCalls {T E : Type} : Result T E → Nat
  | .ok _ => 0
  | .err _ => 1

/-- Number of `std::invoke(f, ...)` occurrences executed by
`map_err_impl`: none in the Ok case; exactly one in the Err case — each of
the two compile-time construction paths contains a single invocation. -/
def Result.mapErrCalls {T E : Type} : Result T E → Nat
  | .ok _ => 0
  | .err _ => 1

/-- `map_impl` re-embedded with the fatal-failure channel made explicit: a
`throw` in the visitor body would appear here as `Except.error`, and the
source body contains none, so every branch is `Except.ok`. -/
def Result.mapE {T E U : Type} (f : T → U) :
    Result T E → Except String (Result U E)
  | .ok v => Except.ok (Result.ok (f v))
  | .err e => Except.ok (Result.err e)

/-- `and_then_impl` re-embedded with the fatal-failure channel made
explicit: no branch of the source body throws, so every branch is
`Except.ok`. -/
def Result.and_thenE {T E U : Type} (f : T → Result U E) :
    Result T E → Except String (Result U E)
  | .ok v => Except.ok (f v)
  | .err e => Except.ok (Result.err e)

/-- `or_else_impl` re-embedded with the fatal-failure channel made
explicit: no branch of the source body throws, so every branch is
`Except.ok`. -/
def Result.or_elseE {T E : Type} (f : E → Result T E) :
    Result T E → Except String (Result T E)
  | .ok v => Except.ok (Result.ok v)
  | .err e => Except.ok (f e)

/-- `map_err_impl` re-embedded with the fatal-failure channel made
explicit: no branch of the source body throws (its use of `unwrap_err` sits
inside `decltype`, an unevaluated context), so every branch is
`Except.ok`. -/
def Result.map_errE {T E F : Type} (samePath : Bool) (f : E → F) :
    Result T E → Except String (Result T F)
  | .ok v => Except.ok (Result.ok v)
  | .err e =>
    Except.ok (if samePath then Result.err (f e) else Result.err_in_place (f e))

/-- `match_impl` re-embedded with the fatal-failure channel made explicit:
no branch of the source body throws (its use of `unwrap` sits inside
`decltype`, an unevaluated context), so every branch is `Except.ok`. -/
def Result.matchE {T E R : Type} (ok_fn : T → R) (err_fn : E → R) :
    Result T E → Except String R
  | .ok v => Except.ok (ok_fn v)
  | .err e => Except.ok (err_fn e)

end ResultHpp

namespace ResultHpp

/-- C1: every `Result<T,E>` — hence every value produced by the factories
`ok`, `ok_in_place`, `err`, `err_in_place`, `errMsg` or returned by a
combinator — is in exactly one of the Ok/Err states: `is_ok` and `is_err`
are opposite booleans and the boolean conversion returns the same value as
`is_ok`; each factory lands in its advertised state. -/
theorem c1_exactly_one_state :
    (∀ (T E : Type) (r : Result T E),
        r.is_err = !r.is_ok ∧ r.toBool = r.is_ok) ∧
    (∀ (T E : Type) (x : T) (e : E) (m : String) (c : Int),
        (@Result.ok T E x).is_ok = true ∧
        (@Result.ok_in_place T E x).is_ok = true ∧
        (@Result.err T E e).is_err = true ∧
        (@Result.err_in_place T E e).is_err = true ∧
        (@Result.errMsg T m c).is_err = true) := by
  refine ⟨?_, ?_⟩
  · intro T E r
    cases r <;> exact ⟨rfl, rfl⟩
  · intro T E x e m c
    exact ⟨rfl, rfl, rfl, rfl, rfl⟩

/-- C2: `unwrap` returns the payload on Ok; on Err it fails with the
generic diagnostic "Attempted to unwrap error result" (exactly that string
for a custom error type). `expect msg` behaves the same with diagnostic
`msg`; when `E` is the default `Error` type the diagnostic is `msg`
followed by ": " and the error's message field — and `unwrap` is literally
`expect` at the generic message, so the same appending applies to it. -/
theorem c2_unwrap_and_expect :
    (∀ (T E : Type) (em : Option (E → String)) (x : T) (msg : String),
        Result.unwrap em (@Result.ok T E x) = Except.ok x ∧
        Result.expect em msg (@Result.ok T E x) = Except.ok x) ∧
    (∀ (T E : Type) (e : E) (msg : String),
        Result.unwrap none (@Result.err T E e)
          = Except.error "Attempted to unwrap error result" ∧
        Result.expect none msg (@Result.err T E e) = Except.error msg) ∧
    (∀ (T : Type) (e : Error) (msg : String),
        Result.expect (some Error.message) msg (@Result.err T Error e)
          = Except.error (msg ++ ": " ++ e.message) ∧
        Result.unwrap (some Error.message) (@Result.err T Error e)
          = Except.error ("Attempted to unwrap error result" ++ ": " ++ e.message)) ∧
    (∀ (T E : Type) (em : Option (E → String)) (r : Result T E),
        Result.unwrap em r = Result.expect em "Attempted to unwrap error result" r) := by
  refine ⟨?_, ?_, ?_, ?_⟩
  · intro T E em x msg
    exact ⟨rfl, rfl⟩
  · intro T E e msg
    exact ⟨rfl, rfl⟩
  · intro T e msg
    exact ⟨rfl, rfl⟩
  · intro T E em r
    rfl

/-- C3: `unwrap_err` and `expect_err msg` return the contained error on an
Err receiver and fail fatally (an `Except.error` on the runtime-failure
channel) on an Ok receiver. -/
theorem c3_unwrap_err_and_expect_err :
    (∀ (T E : Type) (e : E) (msg : String),
        Result.unwrap_err (@Result.err T E e) = Except.ok e ∧
        Result.expect_err msg (@Result.err T E e) = Except.ok e) ∧
    (∀ (T E : Type) (x : T) (msg : String),
        Result.unwrap_err (@Result.ok T E x)
          = Except.error "Attempted to unwrap_err on ok result" ∧
        Result.expect_err msg (@Result.ok T E x) = Except.error msg) := by
  refine ⟨?_, ?_⟩
  · intro T E e msg
    exact ⟨rfl, rfl⟩
  · intro T E x msg
    exact ⟨rfl, rfl⟩

/-- C4: short-circuit policy. On an Err receiver, `map` and `and_then`
execute zero callback invocations and their result does not depend on the
callback; on an Ok receiver, `or_else`, `unwrap_or_else` and `map_err`
execute zero callback invocations and their result does not depend on the
callback; and on every receiver each combinator invokes its callback at
most once. -/
theorem c4_short_circuit :
    (∀ (T E : Type) (e : E),
        Result.mapCalls (@Result.err T E e) = 0 ∧
        Result.andThenCalls (@Result.err T E e) = 0 ∧
        ∀ (U : Type) (f g : T → U) (p q : T → Result U E),
          Result.map f (@Result.err T E e) = Result.map g (@Result.err T E e) ∧
          Result.and_then p (@Result.err T E e)
            = Result.and_then q (@Result.err T E e)) ∧
    (∀ (T E : Type) (x : T),
        Result.orElseCalls (@Result.ok T E x) = 0 ∧
        Result.unwrapOrElseCalls (@Result.ok T E x) = 0 ∧
        Result.mapErrCalls (@Result.ok T E x) = 0 ∧
        ∀ (F : Type) (f g : E → Result T E) (u v : E → T) (b : Bool)
            (p q : E → F),
          Result.or_else f (@Result.ok T E x)
            = Result.or_else g (@Result.ok T E x) ∧
          Result.unwrap_or_else u (@Result.ok T E x)
            = Result.unwrap_or_else v (@Result.ok T E x) ∧
          Result.map_err b p (@Result.ok T E x)
            = Result.map_err b q (@Result.ok T E x)) ∧
    (∀ (T E : Type) (r : Result T E),
        Result.mapCalls r ≤ 1 ∧ Result.andThenCalls r ≤ 1 ∧
        Result.orElseCalls r ≤ 1 ∧ Result.unwrapOrElseCalls r ≤ 1 ∧
        Result.mapErrCalls r ≤ 1) := by
  refine ⟨?_, ?_, ?_⟩
  · intro T E e
    exact ⟨rfl, rfl, fun U f g p q => ⟨rfl, rfl⟩⟩
  · intro T E x
    exact ⟨rfl, rfl, rfl, fun F f g u v b p q => ⟨rfl, rfl, rfl⟩⟩
  · intro T E r
    cases r <;>
      simp [Result.mapCalls, Result.andThenCalls, Result.orElseCalls,
        Result.unwrapOrElseCalls, Result.mapErrCalls]

/-- C5: `and_then` flattens. On `ok x` it returns the `Result` computed by
`f x` itself, with no additional wrapping (in particular, when `f x` is an
Err that Err is the overall result); on `err e` it returns the Err state of
`f`'s result type holding the same error `e`, with zero callback
invocations. -/
theorem c5_and_then_flattens :
    (∀ (T E U : Type) (x : T) (f : T → Result U E),
        Result.and_then f (@Result.ok T E x) = f x) ∧
    (∀ (T E U : Type) (x : T) (e : E),
        Result.and_then (fun _ => @Result.err U E e) (@Result.ok T E x)
          = @Result.err U E e) ∧
    (∀ (T E U : Type) (e : E) (f : T → Result U E),
        Result.and_then f (@Result.err T E e) = @Result.err U E e ∧
        Result.andThenCalls (@Result.err T E e) = 0) := by
  refine ⟨?_, ?_, ?_⟩
  · intro T E U x f
    rfl
  · intro T E U x e
    rfl
  · intro T E U e f
    exact ⟨rfl, rfl⟩

/-- C6: `map` on `ok x` yields `ok (f x)` in `Result<U,E>`; when the
callback returns no value the result is the Ok state of `Result<void,E>`;
on `err e` both branches yield the Err state holding the unchanged error.
The spec scenario holds: mapping `to_string` over `Result<int>::ok(42)` and
unwrapping gives "42". -/
theorem c6_map :
    (∀ (T E U : Type) (x : T) (f : T → U),
        Result.map f (@Result.ok T E x) = @Result.ok U E (f x)) ∧
    (∀ (T E : Type) (x : T) (f : T → Unit),
        Result.mapVoid f (@Result.ok T E x) = ResultV.ok ∧
        (Result.mapVoid f (@Result.ok T E x)).is_ok = true) ∧
    (∀ (T E U : Type) (e : E) (f : T → U) (g : T → Unit),
        Result.map f (@Result.err T E e) = @Result.err U E e ∧
        Result.mapVoid g (@Result.err T E e) = ResultV.err e) ∧
    Result.unwrap (some Error.message)
        (Result.map (fun x : Int => toString x) (@Result.ok Int Error 42))
      = Except.ok "42" := by
  refine ⟨?_, ?_, ?_, ?_⟩
  · intro T E U x f
    rfl
  · intro T E x f
    exact ⟨rfl, rfl⟩
  · intro T E U e f g
    exact ⟨rfl, rfl⟩
  · rfl

/-- C7: `map_err` on `err e` yields the Err state of `Result<T,F>` holding
exactly the single value `f e`, whichever of the two internal construction
paths (`err` by move, `err_in_place` by forwarding) the compile-time
dispatch selects; on `ok x` it yields `ok x` with the payload unchanged and
zero callback invocations. -/
theorem c7_map_err :
    (∀ (T E F : Type) (e : E) (f : E → F) (b : Bool),
        Result.map_err b f (@Result.err T E e) = @Result.err T F (f e)) ∧
    (∀ (T E F : Type) (e : E) (f : E → F),
        Result.map_err true f (@Result.err T E e)
          = Result.map_err false f (@Result.err T E e)) ∧
    (∀ (T E F : Type) (x : T) (f : E → F) (b : Bool),
        Result.map_err b f (@Result.ok T E x) = @Result.ok T F x ∧
        Result.mapErrCalls (@Result.ok T E x) = 0) := by
  refine ⟨?_, ?_, ?_⟩
  · intro T E F e f b
    cases b <;> rfl
  · intro T E F e f
    rfl
  · intro T E F x f b
    exact ⟨rfl, rfl⟩

/-- C8: `to_optional` round-trips the Ok payload: `ok x` becomes the
optional holding `x` and `err e` becomes the absent optional, on both the
const-lvalue (copying) and the rvalue (moving) receiver overloads, which
agree on every receiver. -/
theorem c8_to_optional :
    (∀ (T E : Type) (x : T),
        Result.to_optional (@Result.ok T E x) = some x ∧
        Result.to_optional_rv (@Result.ok T E x) = some x) ∧
    (∀ (T E : Type) (e : E),
        Result.to_optional (@Result.err T E e) = none ∧
        Result.to_optional_rv (@Result.err T E e) = none) ∧
    (∀ (T E : Type) (r : Result T E),
        Result.to_optional_rv r = Result.to_optional r) := by
  refine ⟨?_, ?_, ?_⟩
  · intro T E x
    exact ⟨rfl, rfl⟩
  · intro T E e
    exact ⟨rfl, rfl⟩
  · intro T E r
    cases r <;> rfl

/-- C9: with the fatal-failure channel made explicit, `map`, `and_then`,
`or_else`, `map_err` and `match` produce `Except.ok` of their usual result
on every receiver in either state — their failure branch is unreachable —
while the unwrap-family operations do reach it on a mismatched state. -/
theorem c9_combinators_never_fatal :
    (∀ (T E U R : Type) (f : T → U) (g : T → Result U E)
        (h : E → Result T E) (b : Bool) (p : E → U) (okf : T → R)
        (errf : E → R) (r : Result T E),
        Result.mapE f r = Except.ok (Result.map f r) ∧
        Result.and_thenE g r = Except.ok (Result.and_then g r) ∧
        Result.or_elseE h r = Except.ok (Result.or_else h r) ∧
        Result.map_errE b p r = Except.ok (Result.map_err b p r) ∧
        Result.matchE okf errf r = Except.ok (Result.matchWith okf errf r)) ∧
    (∀ (T E : Type) (x : T) (e : E) (msg : String),
        Result.unwrap none (@Result.err T E e)
          = Except.error "Attempted to unwrap error result" ∧
        Result.expect none msg (@Result.err T E e) = Except.error msg ∧
        Result.unwrap_err (@Result.ok T E x)
          = Except.error "Attempted to unwrap_err on ok result" ∧
        Result.expect_err msg (@Result.ok T E x) = Except.error msg) := by
  refine ⟨?_, ?_⟩
  · intro T E U R f g h b p okf errf r
    cases r <;> exact ⟨rfl, rfl, rfl, rfl, rfl⟩
  · intro T E x e msg
    exact ⟨rfl, rfl, rfl, rfl⟩

/-- C10: `expect_err m` on an Ok receiver fails with the diagnostic exactly
`m`, for every error type — the default `Error` type included — whereas
`expect` on an Err receiver with the default `Error` type appends ": " and
the error's message field to its diagnostic. -/
theorem c10_expect_err_exact_diagnostic :
    (∀ (T E : Type) (x : T) (m : String),
        Result.expect_err m (@Result.ok T E x) = Except.error m) ∧
    (∀ (T : Type) (x : T) (m : String),
        Result.expect_err m (@Result.ok T Error x) = Except.error m) ∧
    (∀ (m : String) (e : Error),
        Result.expect (some Error.message) m (@Result.err Unit Error e)
          = Except.error (m ++ ": " ++ e.message)) := by
  refine ⟨?_, ?_, ?_⟩
  · intro T E x m
    rfl
  · intro T x m
    rfl
  · intro m e
    rfl

end ResultHpp
